import Mathlib

/-!
Shallow embedding of `src/global_data_collector.py` (class `GlobalDataCollector`).

The SQLite store is modelled as three in-memory append-only tables (one list of
typed rows per table, mirroring the schema created by `init_database`).  The
HTTP layer, the HTML/XML parser (BeautifulSoup) and the filesystem are external
collaborators: each operation that consults them takes the outcome of that
single consultation as an explicit argument (an `Except`/`Bool` value), and the
single `requests.get` performed by each fetching function is recorded as one
entry in a returned trace list.  Thread scheduling inside
`ThreadPoolExecutor` is modelled by a fixed sequential execution order of the
submitted jobs; the properties proved below (counts, traces, per-row field
values) do not depend on the interleaving.
-/

/-- Row of the `web_data` table (`init_database`, lines 37-46), without the
surrogate `id` column (a row's identity is its position in the list).  The
`title` column is nullable: `scrape_website` binds `soup.title.string`, which
is Python `None` — stored as SQL NULL — when the title tag's string is
ambiguous; `none` models that NULL. -/
structure WebRow where
  url : String
  title : Option String
  content : String
  timestamp : String
  source : String
deriving Repr, DecidableEq

/-- Row of the `api_data` table (`init_database`, lines 48-56). -/
structure ApiRow where
  endpoint : String
  data_type : String
  data_json : String
  timestamp : String
deriving Repr, DecidableEq

/-- Row of the `news_articles` table (`init_database`, lines 58-69). -/
structure NewsRow where
  title : String
  content : String
  source : String
  published_date : String
  url : String
  authors : String
  timestamp : String
deriving Repr, DecidableEq

/-- The SQLite database `global_data.db`: its three tables. -/
structure Store where
  web_data : List WebRow
  api_data : List ApiRow
  news_articles : List NewsRow
deriving Repr, DecidableEq

/-- `save_to_database` (lines 74-90).  The `INSERT` is executed inside
`try ... except ... finally`: on success the row is committed (appended), on
any exception the error is logged and the function simply returns, leaving the
table as it was (the transaction was never committed).  The outcome of the
`cursor.execute`/`conn.commit` pair for this row is supplied by `execInsert`;
the function's total return type (a plain table, not `Except`) models that no
exception propagates to the caller. -/
def save_to_database {Row : Type} (execInsert : Row → Except String Unit)
    (table : List Row) (row : Row) : List Row :=
  match execInsert row with
  | .ok _ => table ++ [row]
  | .error _ => table

/-!
Model of the Python `json` module as used by `fetch_from_api` (lines 135 and
141): `response.json()` (= `json.loads` on the body text) and `json.dumps`
with its default options (`ensure_ascii=True`, separators `", "` and `": "`).
JSON numbers are modelled as integers only; the parser below is a sound
fragment of `json.loads`: wherever it returns a value, Python's parser accepts
the same text and yields the same document (inputs it cannot handle — floats,
`\u` escapes — make it return `none`, never a wrong value).
-/

/-- A JSON document, as produced by `json.loads` (numbers restricted to
integers). -/
inductive Json where
  | null : Json
  | bool : Bool → Json
  | int : Int → Json
  | str : String → Json
  | arr : List Json → Json
  | obj : List (String × Json) → Json

/-- Skip JSON whitespace. -/
def skipWs : List Char → List Char
  | c :: rest =>
    if c = ' ' ∨ c = '\t' ∨ c = '\n' ∨ c = '\r' then skipWs rest else c :: rest
  | [] => []

/-- Parse the body of a JSON string literal (after the opening quote), handling
the single-character escapes; `\u` escapes are not modelled (parse failure). -/
def parseStringBody : List Char → Option (String × List Char)
  | [] => none
  | '"' :: rest => some ("", rest)
  | '\\' :: esc =>
    match esc with
    | [] => none
    | c :: rest =>
      let ec : Option Char :=
        if c = '"' then some '"'
        else if c = '\\' then some '\\'
        else if c = '/' then some '/'
        else if c = 'n' then some '\n'
        else if c = 't' then some '\t'
        else if c = 'r' then some '\r'
        else if c = 'b' then some (Char.ofNat 8)
        else if c = 'f' then some (Char.ofNat 12)
        else none
      match ec with
      | none => none
      | some e =>
        match parseStringBody rest with
        | some (s, r) => some (String.singleton e ++ s, r)
        | none => none
  | c :: rest =>
    if c.toNat < 32 then none
    else
      match parseStringBody rest with
      | some (s, r) => some (String.singleton c ++ s, r)
      | none => none

/-- Accumulate decimal digits. -/
def parseDigits : List Char → Nat → Nat × List Char
  | c :: rest, acc =>
    if c.isDigit then parseDigits rest (acc * 10 + (c.toNat - 48)) else (acc, c :: rest)
  | [], acc => (acc, [])

/-- Parse a natural number literal (at least one digit, no leading zero). -/
def parseNumNat : List Char → Option (Nat × List Char)
  | c :: rest =>
    if c = '0' then
      match rest with
      | d :: _ => if d.isDigit then none else some (0, rest)
      | [] => some (0, [])
    else if c.isDigit then some (parseDigits rest (c.toNat - 48))
    else none
  | [] => none

/-- Parse an integer literal (optional minus sign). -/
def parseNum : List Char → Option (Json × List Char)
  | '-' :: cs =>
    match parseNumNat cs with
    | some (n, r) => some (Json.int (-(n : Int)), r)
    | none => none
  | cs =>
    match parseNumNat cs with
    | some (n, r) => some (Json.int (n : Int), r)
    | none => none

mutual

/-- Recursive-descent JSON value parser (fuel-indexed). -/
def parseJson : Nat → List Char → Option (Json × List Char)
  | 0, _ => none
  | fuel + 1, cs =>
    match skipWs cs with
    | 'n' :: 'u' :: 'l' :: 'l' :: rest => some (Json.null, rest)
    | 't' :: 'r' :: 'u' :: 'e' :: rest => some (Json.bool true, rest)
    | 'f' :: 'a' :: 'l' :: 's' :: 'e' :: rest => some (Json.bool false, rest)
    | '"' :: rest =>
      match parseStringBody rest with
      | some (s, r) => some (Json.str s, r)
      | none => none
    | '[' :: rest =>
      (match skipWs rest with
       | ']' :: r => some (Json.arr [], r)
       | r => parseElems fuel r [])
    | c :: rest =>
      if c = Char.ofNat 123 then
        (match skipWs rest with
         | c2 :: r2 =>
           if c2 = Char.ofNat 125 then some (Json.obj [], r2)
           else parseMembers fuel (c2 :: r2) []
         | [] => none)
      else parseNum (c :: rest)
    | [] => none

/-- Parse the remaining elements of a non-empty array. -/
def parseElems : Nat → List Char → List Json → Option (Json × List Char)
  | 0, _, _ => none
  | fuel + 1, cs, acc =>
    match parseJson fuel cs with
    | none => none
    | some (j, rest) =>
      match skipWs rest with
      | ',' :: r => parseElems fuel r (acc ++ [j])
      | ']' :: r => some (Json.arr (acc ++ [j]), r)
      | _ => none

/-- Parse the remaining members of a non-empty object. -/
def parseMembers : Nat → List Char → List (String × Json) → Option (Json × List Char)
  | 0, _, _ => none
  | fuel + 1, cs, acc =>
    match skipWs cs with
    | '"' :: r =>
      match parseStringBody r with
      | none => none
      | some (k, r2) =>
        match skipWs r2 with
        | ':' :: r3 =>
          match parseJson fuel r3 with
          | none => none
          | some (v, r4) =>
            match skipWs r4 with
            | c5 :: r5 =>
              if c5 = ',' then parseMembers fuel r5 (acc ++ [(k, v)])
              else if c5 = Char.ofNat 125 then some (Json.obj (acc ++ [(k, v)]), r5)
              else none
            | [] => none
        | _ => none
    | _ => none

end

/-- Model of `json.loads` / `response.json()`: parse one document, requiring
the whole input to be consumed (up to trailing whitespace). -/
def jsonLoads (s : String) : Option Json :=
  match parseJson (s.length + 1) s.toList with
  | some (j, rest) => if skipWs rest = [] then some j else none
  | none => none

/-- Lowercase hex digit. -/
def hexDigitChar (n : Nat) : Char :=
  if n < 10 then Char.ofNat (48 + n) else Char.ofNat (87 + n)

/-- A `\uXXXX` escape for a code unit below 0x10000. -/
def uEscape4 (n : Nat) : String :=
  String.mk ['\\', 'u', hexDigitChar (n / 4096 % 16), hexDigitChar (n / 256 % 16),
             hexDigitChar (n / 16 % 16), hexDigitChar (n % 16)]

/-- How `json.dumps` (with its default `ensure_ascii=True`) renders one
character of a string: printable ASCII other than quote and backslash is kept,
everything else is escaped (named escapes, then `\uXXXX`, with surrogate pairs
above 0xFFFF). -/
def escChar (c : Char) : String :=
  if c = '"' then "\\\""
  else if c = '\\' then "\\\\"
  else if c = '\n' then "\\n"
  else if c = '\t' then "\\t"
  else if c = '\r' then "\\r"
  else if c.toNat = 8 then "\\b"
  else if c.toNat = 12 then "\\f"
  else if c.toNat < 32 ∨ 127 ≤ c.toNat then
    if c.toNat < 65536 then uEscape4 c.toNat
    else uEscape4 (55296 + (c.toNat - 65536) / 1024) ++ uEscape4 (56320 + (c.toNat - 65536) % 1024)
  else String.singleton c

/-- `json.dumps` rendering of a string literal. -/
def dumpStr (s : String) : String :=
  "\"" ++ String.join (s.toList.map escChar) ++ "\""

mutual

/-- Model of `json.dumps` with default options: separators `", "` and `": "`,
`ensure_ascii=True`. -/
def jsonDumps : Json → String
  | .null => "null"
  | .bool true => "true"
  | .bool false => "false"
  | .int n => toString n
  | .str s => dumpStr s
  | .arr xs => "[" ++ String.intercalate ", " (jsonDumpsElems xs) ++ "]"
  | .obj ms => "\x7b" ++ String.intercalate ", " (jsonDumpsMembers ms) ++ "\x7d"

/-- Renderings of the elements of an array. -/
def jsonDumpsElems : List Json → List String
  | [] => []
  | x :: xs => jsonDumps x :: jsonDumpsElems xs

/-- Renderings of the members of an object. -/
def jsonDumpsMembers : List (String × Json) → List String
  | [] => []
  | (k, v) :: ms => (dumpStr k ++ ": " ++ jsonDumps v) :: jsonDumpsMembers ms

end

/-!
Model of the parsed BeautifulSoup document tree, as consumed by
`scrape_website` (HTML) and `parse_rss_feed` (XML): a forest of element and
text nodes.  Only the operations the source uses are modelled: `soup.title`
(first tag of a name, in document order), `.string`/`.text` (concatenated text
content), `find_all`, `decompose` of script/style tags, and
`get_text(separator=' ', strip=True)`.
-/

/-- One node of a parsed HTML/XML document. -/
inductive Html where
  | text : String → Html
  | elem : String → List Html → Html

mutual

/-- Text fragments of one node, in document order (the strings `get_text`
concatenates). -/
def fragsH : Html → List String
  | .text s => [s]
  | .elem _ cs => fragsL cs

/-- Text fragments of a forest, in document order. -/
def fragsL : List Html → List String
  | [] => []
  | h :: rest => fragsH h ++ fragsL rest

end

/-- BeautifulSoup `tag.text`: the concatenated text content of a node. -/
def tagText : Html → String
  | .text s => s
  | .elem _ cs => String.join (fragsL cs)

mutual

/-- BeautifulSoup `tag.string`: the tag's string when it has exactly one
child — that child if it is a string, recursively its `.string` if it is a
tag — and `None` when the tag is empty or has several children. -/
def tagString : Html → Option String
  | .text s => some s
  | .elem _ cs => singleString cs

/-- `tag.string` seen from the child list: defined only for a singleton. -/
def singleString : List Html → Option String
  | [c] => tagString c
  | _ => none

end

mutual

/-- BeautifulSoup `find(tag)` at one node: the node itself if its name
matches, else the first match among its descendants. -/
def findTagH (tag : String) : Html → Option Html
  | .text _ => none
  | .elem name cs => if name = tag then some (.elem name cs) else findTagL tag cs

/-- BeautifulSoup `soup.find(tag)` (also spelled `soup.tag`): the first
element with the given name, in document (preorder) order. -/
def findTagL (tag : String) : List Html → Option Html
  | [] => none
  | h :: rest =>
    match findTagH tag h with
    | some r => some r
    | none => findTagL tag rest

end

mutual

/-- `decompose` applied to one node: dropped entirely when it is a
`script`/`style` element, otherwise kept with its children decomposed. -/
def stripH : Html → List Html
  | .text s => [.text s]
  | .elem name cs =>
    if name = "script" ∨ name = "style" then [] else [.elem name (stripL cs)]

/-- Effect of the loop `for script in soup(["script", "style"]):
script.decompose()` (lines 102-103): every `script`/`style` element is removed
from the tree together with its whole subtree. -/
def stripL : List Html → List Html
  | [] => []
  | h :: rest => stripH h ++ stripL rest

end

mutual

/-- Modelled from the spec, at one node: its text fragments with the content
of `script` and `style` elements excluded. -/
def cleanH : Html → List String
  | .text s => [s]
  | .elem name cs =>
    if name = "script" ∨ name = "style" then [] else cleanL cs

/-- Modelled from the spec: the text fragments of the document with the
content of `script` and `style` elements excluded ("a whitespace-normalized
text rendering ... with script/style content excluded"). -/
def cleanL : List Html → List String
  | [] => []
  | h :: rest => cleanH h ++ cleanL rest

end

/-- Python `str.strip()` whitespace test (space, tab, newline, carriage
return, vertical tab, form feed). -/
def isPyWs (c : Char) : Bool :=
  c == ' ' || c == '\t' || c == '\n' || c == '\r' || c.toNat == 11 || c.toNat == 12

/-- Drop leading whitespace characters. -/
def dropWsL : List Char → List Char
  | [] => []
  | c :: rest => if isPyWs c then dropWsL rest else c :: rest

/-- Model of Python `str.strip()`: remove leading and trailing whitespace. -/
def pyStrip (s : String) : String :=
  String.mk ((dropWsL (dropWsL s.toList).reverse).reverse)

/-- BeautifulSoup `get_text(separator=' ', strip=True)`: each text fragment is
stripped, empty fragments are dropped, and the rest are joined with a single
space. -/
def getTextStrip (doc : List Html) : String :=
  String.intercalate " " (((fragsL doc).map pyStrip).filter (fun s => ¬ s = ""))

mutual

/-- `find_all('item')` at one node: the node itself when named `item`,
followed by the matches among its descendants. -/
def itemsH : Html → List Html
  | .text _ => []
  | .elem name cs =>
    (if name = "item" then [Html.elem name cs] else []) ++ itemsL cs

/-- BeautifulSoup `soup.find_all('item')` (line 188): every element named
`item`, in document order, descendants included. -/
def itemsL : List Html → List Html
  | [] => []
  | h :: rest => itemsH h ++ itemsL rest

end

/-- Child forest of a node (the scope in which `item.title` etc. search). -/
def itemChildren : Html → List Html
  | .text _ => []
  | .elem _ cs => cs

/-!  The three collection functions.  Each performs exactly one
`requests.get` (lines 95, 132, 184); the outcome of that single attempt
(`raise_for_status` included) is the `fetch` argument, and the attempt itself
is recorded as the returned trace `[url]`.  The success of the database
`INSERT` and of the archive-file write for this call are the `dbOk`/`fileOk`
arguments; `now` is `datetime.now().isoformat()`. -/

/-- `scrape_website` (lines 92-127).  On fetch success: title bound to
`soup.title.string` when a title tag exists (possibly Python `None`, stored
as NULL) and to `"No title"` otherwise; script/style tags decomposed, text
extracted, the row saved via `save_to_database`, then the JSON archive file
written; any exception (fetch or file write) is caught by the outer `except`,
which logs and returns `None` — without undoing the database append. -/
def scrape_website (fetch : Except String (List Html)) (dbOk fileOk : Bool)
    (now : String) (store : Store) (url : String) :
    Store × Option WebRow × List String :=
  match fetch with
  | .error _ => (store, none, [url])
  | .ok doc =>
    let title : Option String :=
      match findTagL "title" doc with
      | some t => tagString t
      | none => some "No title"
    let text := getTextStrip (stripL doc)
    let row : WebRow :=
      { url := url, title := title, content := text, timestamp := now, source := "web_scraping" }
    let web' := save_to_database
      (fun _ => if dbOk then Except.ok () else Except.error "insert failed") store.web_data row
    let store' := { store with web_data := web' }
    if fileOk then (store', some row, [url]) else (store', none, [url])

/-- `fetch_from_api` (lines 129-157).  On fetch success the body is parsed by
`response.json()`; the stored `data_json` is `json.dumps(data)` — a
re-serialization of the parsed document, not the body text itself.  The row is
saved, then the archive file written; any exception is caught by the outer
`except`, which logs and returns `None` — without undoing the database
append. -/
def fetch_from_api (fetch : Except String String) (dbOk fileOk : Bool)
    (now : String) (store : Store) (endpoint : String) :
    Store × Option Json × List String :=
  match fetch with
  | .error _ => (store, none, [endpoint])
  | .ok body =>
    match jsonLoads body with
    | none => (store, none, [endpoint])
    | some data =>
      let row : ApiRow :=
        { endpoint := endpoint, data_type := "json", data_json := jsonDumps data, timestamp := now }
      let api' := save_to_database
        (fun _ => if dbOk then Except.ok () else Except.error "insert failed") store.api_data row
      let store' := { store with api_data := api' }
      if fileOk then (store', some data, [endpoint]) else (store', none, [endpoint])

/-- The row built for one `item` element in the loop of `parse_rss_feed`
(lines 190-204): title/description/pubDate/link are the first so-named
descendant tags, with fallbacks `"No title"` / `""` / `""` / `""`, `authors`
is the literal empty string, `source` is the feed URL. -/
def rssRow (feed_url now : String) (item : Html) : NewsRow :=
  { title :=
      match findTagL "title" (itemChildren item) with
      | some t => tagText t
      | none => "No title"
    content :=
      match findTagL "description" (itemChildren item) with
      | some t => tagText t
      | none => ""
    source := feed_url
    published_date :=
      match findTagL "pubDate" (itemChildren item) with
      | some t => tagText t
      | none => ""
    url :=
      match findTagL "link" (itemChildren item) with
      | some t => tagText t
      | none => ""
    authors := ""
    timestamp := now }

/-- `parse_rss_feed` (lines 181-211).  On fetch success every `item` element
yields one row saved via `save_to_database`; the returned flag is whether the
function reached its final success log line (`False` only when the fetch
itself failed and the outer `except` ran). -/
def parse_rss_feed (fetch : Except String (List Html))
    (dbExec : NewsRow → Except String Unit) (now : String) (store : Store)
    (feed_url : String) : Store × Bool × List String :=
  match fetch with
  | .error _ => (store, false, [feed_url])
  | .ok doc =>
    let items := itemsL doc
    let table := items.foldl
      (fun tbl item => save_to_database dbExec tbl (rssRow feed_url now item))
      store.news_articles
    ({ store with news_articles := table }, true, [feed_url])

/-- Kind of one collection job: which of the three fetch/parse pipelines the
source URL goes through. -/
inductive JobKind where
  | page : JobKind
  | api : JobKind
  | rss : JobKind
deriving Repr, DecidableEq

/-- One (source, kind) job of a collection run. -/
structure Job where
  url : String
  kind : JobKind
deriving Repr, DecidableEq

/-- The external world for one run: for each URL, the outcome of the single
HTTP attempt made for it (per kind), plus the database/filesystem disposition
and the clock. -/
structure Env where
  pageResult : String → Except String (List Html)
  apiResult : String → Except String String
  rssResult : String → Except String (List Html)
  dbOk : Bool
  fileOk : Bool
  now : String

/-- Run one job through its pipeline, returning the updated store and the
trace of HTTP attempts it made. -/
def runJob (env : Env) (store : Store) (j : Job) : Store × List String :=
  match j.kind with
  | .page =>
    let r := scrape_website (env.pageResult j.url) env.dbOk env.fileOk env.now store j.url
    (r.1, r.2.2)
  | .api =>
    let r := fetch_from_api (env.apiResult j.url) env.dbOk env.fileOk env.now store j.url
    (r.1, r.2.2)
  | .rss =>
    let r := parse_rss_feed (env.rssResult j.url)
      (fun _ => if env.dbOk then Except.ok () else Except.error "insert failed")
      env.now store j.url
    (r.1, r.2.2)

/-- Outcome of `collect_all_data`: the final store, the trace of HTTP attempts
(one entry per `requests.get` issued), and the configuration error, if the
run was rejected before any job executed. -/
structure RunResult where
  store : Store
  trace : List String
  configError : Option String
deriving Repr, DecidableEq

/-- `collect_all_data` (lines 256-284), generalized over the job list (the
source hardcodes one particular list: four pages, three APIs, and the
news/datasets/government groups, each of which is itself a sequence of
per-source jobs).  `ThreadPoolExecutor(max_workers=max_workers)` raises
`ValueError("max_workers must be greater than 0")` in its constructor when
`max_workers ≤ 0` — before the `with` body runs, so before any job executes.
Otherwise every submitted job runs to a terminal state before the `with`
block exits; the pool's interleaving is modelled by sequential execution. -/
def collect_all_data (max_workers : Int) (jobs : List Job) (env : Env)
    (store : Store) : RunResult :=
  if max_workers ≤ 0 then
    { store := store, trace := [], configError := some "max_workers must be greater than 0" }
  else
    let final := jobs.foldl
      (fun acc j =>
        let r := runJob env acc.1 j
        (r.1, acc.2 ++ r.2))
      (store, ([] : List String))
    { store := final.1, trace := final.2, configError := none }

/-- The hardcoded source list of `collect_government_data` (lines 242-247). -/
def government_sources : List String :=
  ["https://www.data.gov", "https://www.gov.uk/government/statistics",
   "https://data.europa.eu", "https://data.gov.au"]

/-- `collect_government_data` (lines 240-254): scrape each government source
in turn (the per-source `try/except` never fires, since `scrape_website`
catches its own exceptions). -/
def collect_government_data (genv : String → Except String (List Html))
    (dbOk fileOk : Bool) (now : String) (store : Store) : Store :=
  government_sources.foldl
    (fun s url => (scrape_website (genv url) dbOk fileOk now s url).1) store

/-!  Report generation.  The archive directory `global_data_collection` is
modelled as a list of (filename, size-in-bytes) entries; `os.listdir` is the
list of names, and writing a file replaces an existing entry of the same name
or appends a new one. -/

/-- One file of the archive directory. -/
structure FileEntry where
  name : String
  size : Nat
deriving Repr, DecidableEq

/-- Writing a file into the archive directory: overwrite an entry of the same
name, else create a new entry. -/
def writeFile (fs : List FileEntry) (name : String) (size : Nat) : List FileEntry :=
  if fs.any (fun e => e.name == name) then
    fs.map (fun e => if e.name == name then { name := name, size := size } else e)
  else fs ++ [{ name := name, size := size }]

/-- Which table a `count_table_records` call reads. -/
inductive TableName where
  | web_data : TableName
  | api_data : TableName
  | news_articles : TableName
deriving Repr, DecidableEq

/-- `count_table_records` (lines 311-318): `SELECT COUNT(*)` on one table. -/
def count_table_records (store : Store) : TableName → Nat
  | .web_data => store.web_data.length
  | .api_data => store.api_data.length
  | .news_articles => store.news_articles.length

/-- The report dictionary of `generate_summary_report` (lines 293-302).
`storage_size` is kept as the total byte count (the source formats it as an
`"x.xx MB"` string via float division; the formatting step is not modelled);
`file_count` is `len(os.listdir(dir)) - 1` ("exclude the DB file"). -/
structure Report where
  timestamp : String
  web_scraping : Nat
  api_data : Nat
  news_articles : Nat
  storage_size : Nat
  file_count : Int
deriving Repr, DecidableEq

/-- `generate_summary_report` (lines 291-309): build the report from the
current store and archive directory, then write it to
`collection_report.json` inside that same directory.  `reportSize` is the
byte size of the written JSON file. -/
def generate_summary_report (now : String) (store : Store) (fs : List FileEntry)
    (reportSize : Nat) : Report × List FileEntry :=
  let report : Report :=
    { timestamp := now
      web_scraping := count_table_records store .web_data
      api_data := count_table_records store .api_data
      news_articles := count_table_records store .news_articles
      storage_size := (fs.map FileEntry.size).sum
      file_count := (fs.length : Int) - 1 }
  (report, writeFile fs "collection_report.json" reportSize)

/-!  Concrete inputs used by the witness theorems below. -/

/-- An empty store (a freshly initialized database). -/
def storeW : Store := ⟨[], [], []⟩

/-- An environment whose network attempts all fail (the traces and
configuration checks do not depend on the outcomes). -/
def envW : Env :=
  { pageResult := fun _ => Except.error "network unreachable"
    apiResult := fun _ => Except.error "network unreachable"
    rssResult := fun _ => Except.error "network unreachable"
    dbOk := true
    fileOk := true
    now := "t0" }

/-- One job of each kind, with URLs from the hardcoded source lists. -/
def jobsW : List Job :=
  [{ url := "https://en.wikipedia.org/wiki/Main_Page", kind := .page },
   { url := "https://api.publicapis.org/entries", kind := .api },
   { url := "http://feeds.bbci.co.uk/news/world/rss.xml", kind := .rss }]

/-- A small page: a title, some body text, and a script tag. -/
def pageDocW : List Html :=
  [Html.elem "title" [Html.text "T"], Html.text "hi",
   Html.elem "script" [Html.text "var x = 1;"]]

/-- A page whose title element is present but holds two children, so its
`.string` is `None` while its text content is `"ac"`. -/
def multiTitleDocW : List Html :=
  [Html.elem "title" [Html.text "a", Html.elem "b" [Html.text "c"]]]

/-- An RSS feed with one `item` carrying only a title. -/
def feedDocW : List Html :=
  [Html.elem "rss" [Html.elem "channel"
    [Html.elem "item" [Html.elem "title" [Html.text "Headline"]]]]]

/-- An RSS feed with a channel but zero `item` elements. -/
def emptyFeedW : List Html :=
  [Html.elem "rss" [Html.elem "channel" [Html.elem "title" [Html.text "Feed"]]]]

/-- An archive directory holding the database file and one archived page, but
no `collection_report.json` yet. -/
def fs0 : List FileEntry :=
  [{ name := "global_data.db", size := 4096 },
   { name := "webpage_20240101_000000.json", size := 100 }]

/-- First report generation over `fs0` and the empty store. -/
def report1W : Report × List FileEntry := generate_summary_report "t1" storeW fs0 50

/-- Second report generation, over the unchanged store and the directory left
by the first. -/
def report2W : Report × List FileEntry := generate_summary_report "t2" storeW report1W.2 50

/-!  Helper lemmas. -/

/-- Fragment collection distributes over forest concatenation. -/
theorem fragsL_append : ∀ a b : List Html, fragsL (a ++ b) = fragsL a ++ fragsL b
  | [], b => by simp [fragsL]
  | h :: rest, b => by
    simp [fragsL, fragsL_append rest b]

mutual

/-- Decomposing one node and collecting the text fragments yields exactly its
fragments outside script/style content. -/
theorem fragsH_strip : ∀ h : Html, fragsL (stripH h) = cleanH h
  | .text s => by simp [stripH, fragsL, fragsH, cleanH]
  | .elem name cs => by
    by_cases hn : name = "script" ∨ name = "style"
    · simp [stripH, cleanH, hn, fragsL]
    · simp [stripH, cleanH, hn, fragsL, fragsH, fragsL_strip cs]

/-- Decomposing the script/style elements and then collecting the text
fragments yields exactly the fragments outside script/style content. -/
theorem fragsL_strip : ∀ f : List Html, fragsL (stripL f) = cleanL f
  | [] => rfl
  | h :: rest => by
    simp only [stripL, cleanL, fragsL_append, fragsH_strip h, fragsL_strip rest]

end

/-- `scrape_website` records exactly one HTTP attempt, whatever happens. -/
theorem scrape_website_trace (fetch : Except String (List Html)) (dbOk fileOk : Bool)
    (now : String) (store : Store) (url : String) :
    (scrape_website fetch dbOk fileOk now store url).2.2 = [url] := by
  cases fetch with
  | error e => rfl
  | ok doc => cases fileOk <;> rfl

/-- `fetch_from_api` records exactly one HTTP attempt, whatever happens. -/
theorem fetch_from_api_trace (fetch : Except String String) (dbOk fileOk : Bool)
    (now : String) (store : Store) (endpoint : String) :
    (fetch_from_api fetch dbOk fileOk now store endpoint).2.2 = [endpoint] := by
  cases fetch with
  | error e => rfl
  | ok body =>
    cases h : jsonLoads body with
    | none => simp [fetch_from_api, h]
    | some data => cases fileOk <;> simp [fetch_from_api, h]

/-- `parse_rss_feed` records exactly one HTTP attempt, whatever happens. -/
theorem parse_rss_feed_trace (fetch : Except String (List Html))
    (dbExec : NewsRow → Except String Unit) (now : String) (store : Store)
    (feed_url : String) :
    (parse_rss_feed fetch dbExec now store feed_url).2.2 = [feed_url] := by
  cases fetch <;> rfl

/-- Every job issues exactly one HTTP attempt, for its own URL. -/
theorem runJob_trace (env : Env) (store : Store) (j : Job) :
    (runJob env store j).2 = [j.url] := by
  cases j with
  | mk url kind =>
    cases kind <;>
      simp only [runJob, scrape_website_trace, fetch_from_api_trace, parse_rss_feed_trace]

/-- Folding `runJob` over a job list appends exactly one attempt per job to
the trace accumulator. -/
theorem foldl_runJob_trace (env : Env) :
    ∀ (jobs : List Job) (s : Store) (tr : List String),
      (jobs.foldl (fun acc j => let r := runJob env acc.1 j; (r.1, acc.2 ++ r.2)) (s, tr)).2
        = tr ++ jobs.map Job.url
  | [], s, tr => by simp
  | j :: rest, s, tr => by
    simp only [List.foldl, List.map]
    rw [foldl_runJob_trace env rest, runJob_trace]
    simp

/-- With an always-succeeding insert, folding the per-item save appends the
mapped rows in order. -/
theorem foldl_save_allok (feed now : String) :
    ∀ (items : List Html) (tbl : List NewsRow),
      items.foldl
          (fun t it => save_to_database (fun _ => Except.ok ()) t (rssRow feed now it)) tbl
        = tbl ++ items.map (rssRow feed now)
  | [], tbl => by simp
  | it :: rest, tbl => by
    simp only [List.foldl, List.map]
    rw [foldl_save_allok feed now rest]
    simp [save_to_database]

/-- One `scrape_website` call either leaves `web_data` unchanged or appends a
single row whose `source` is the constant `"web_scraping"`. -/
theorem scrape_website_web_data_cases (fetch : Except String (List Html))
    (dbOk fileOk : Bool) (now : String) (store : Store) (url : String) :
    (scrape_website fetch dbOk fileOk now store url).1.web_data = store.web_data
    ∨ ∃ row : WebRow, row.source = "web_scraping"
        ∧ (scrape_website fetch dbOk fileOk now store url).1.web_data
            = store.web_data ++ [row] := by
  cases fetch with
  | error e => exact Or.inl rfl
  | ok doc =>
    cases dbOk with
    | false => cases fileOk <;> exact Or.inl rfl
    | true =>
      cases fileOk <;>
        exact Or.inr ⟨_, rfl, rfl⟩

/-- A membership property preserved by scraping: every row of the output
table is either an input row or carries `source = "web_scraping"`. -/
theorem scrape_website_web_data_mem (fetch : Except String (List Html))
    (dbOk fileOk : Bool) (now : String) (store : Store) (url : String)
    (row : WebRow)
    (hmem : row ∈ (scrape_website fetch dbOk fileOk now store url).1.web_data) :
    row ∈ store.web_data ∨ row.source = "web_scraping" := by
  rcases scrape_website_web_data_cases fetch dbOk fileOk now store url with h | ⟨r, hs, h⟩
  · exact Or.inl (h ▸ hmem)
  · rw [h] at hmem
    rcases List.mem_append.mp hmem with h1 | h2
    · exact Or.inl h1
    · rcases List.mem_singleton.mp h2 with rfl
      exact Or.inr hs

/-- After a new write, the file is present in the directory. -/
theorem writeFile_mem (fs : List FileEntry) (name : String) (size : Nat) :
    (writeFile fs name size).any (fun e => e.name == name) = true := by
  unfold writeFile
  by_cases h : fs.any (fun e => e.name == name) = true
  · rw [if_pos h]
    rcases List.any_eq_true.mp h with ⟨e, he, hname⟩
    refine List.any_eq_true.mpr ⟨{ name := name, size := size }, ?_, by simp⟩
    exact List.mem_map.mpr ⟨e, he, by simp [hname]⟩
  · rw [if_neg h]
    refine List.any_eq_true.mpr ⟨{ name := name, size := size }, ?_, by simp⟩
    simp

/-- Writing grows the directory only when the name was absent. -/
theorem writeFile_length (fs : List FileEntry) (name : String) (size : Nat) :
    (writeFile fs name size).length
      = if fs.any (fun e => e.name == name) then fs.length else fs.length + 1 := by
  unfold writeFile
  by_cases h : fs.any (fun e => e.name == name) = true
  · simp [h]
  · simp [h]

/-- A fold of scrapes over a URL list preserves the invariant that every row
is an original row or carries the constant source string. -/
theorem foldl_scrape_sources (genv : String → Except String (List Html))
    (dbOk fileOk : Bool) (now : String) (orig : List WebRow) :
    ∀ (urls : List String) (s : Store),
      (∀ row ∈ s.web_data, row ∈ orig ∨ row.source = "web_scraping") →
      ∀ row ∈ (urls.foldl
          (fun st u => (scrape_website (genv u) dbOk fileOk now st u).1) s).web_data,
        row ∈ orig ∨ row.source = "web_scraping"
  | [], _, hs => hs
  | u :: rest, s, hs => by
    simp only [List.foldl]
    refine foldl_scrape_sources genv dbOk fileOk now orig rest _ ?_
    intro row hrow
    rcases scrape_website_web_data_mem (genv u) dbOk fileOk now s u row hrow with h1 | h2
    · exact hs row h1
    · exact Or.inr h2

/-- A fold of per-item saves preserves the invariant that every row is an
original row or has an empty `authors` field. -/
theorem foldl_save_news (dbExec : NewsRow → Except String Unit)
    (feed now : String) (orig : List NewsRow) :
    ∀ (items : List Html) (tbl : List NewsRow),
      (∀ r ∈ tbl, r ∈ orig ∨ r.authors = "") →
      ∀ r ∈ items.foldl
          (fun t it => save_to_database dbExec t (rssRow feed now it)) tbl,
        r ∈ orig ∨ r.authors = ""
  | [], _, h => h
  | it :: rest, tbl, h => by
    simp only [List.foldl]
    refine foldl_save_news dbExec feed now orig rest _ ?_
    intro r hr
    cases hx : dbExec (rssRow feed now it) with
    | ok u =>
      simp only [save_to_database, hx] at hr
      rcases List.mem_append.mp hr with h1 | h2
      · exact h r h1
      · rcases List.mem_singleton.mp h2 with rfl
        exact Or.inr rfl
    | error e =>
      simp only [save_to_database, hx] at hr
      exact h r hr

/-!  The claims. -/

/-- C1 counterexample: for the successfully fetched body `"[1,2]"` the stored
`data_json` is `"[1, 2]"` — the `json.dumps` re-serialization of the parsed
document — which is not the raw body text, refuting "wraps the body
verbatim". -/
theorem fetch_from_api_not_verbatim :
    ((fetch_from_api (Except.ok "[1,2]") true true "t0" storeW
        "https://api.example.com").1.api_data.map ApiRow.data_json = ["[1, 2]"])
    ∧ "[1, 2]" ≠ "[1,2]" :=
  ⟨rfl, by decide⟩

/-- C1 (amended): every successful API fetch appends exactly one `api_data`
row, whose `data_type` is `"json"` and whose `data_json` is the default
`json.dumps` re-serialization of the parsed response body — a semantically
equal JSON document, but not necessarily the body text byte for byte. -/
theorem fetch_from_api_appends_dumps (body : String) (j : Json)
    (h : jsonLoads body = some j) (fileOk : Bool) (now endpoint : String)
    (store : Store) :
    (fetch_from_api (Except.ok body) true fileOk now store endpoint).1.api_data
      = store.api_data
        ++ [{ endpoint := endpoint, data_type := "json", data_json := jsonDumps j,
              timestamp := now }] := by
  cases fileOk <;> simp [fetch_from_api, h, save_to_database]

/-- C1 witness: the amended claim at the concrete body `"[1,2]"`. -/
theorem fetch_from_api_appends_dumps_witness :
    (fetch_from_api (Except.ok "[1,2]") true true "t0" storeW
        "https://api.example.com").1.api_data
      = [{ endpoint := "https://api.example.com", data_type := "json",
           data_json := jsonDumps (Json.arr [Json.int 1, Json.int 2]),
           timestamp := "t0" }] :=
  fetch_from_api_appends_dumps "[1,2]" (Json.arr [Json.int 1, Json.int 2]) rfl true
    "t0" "https://api.example.com" storeW

/-- C2: an append whose `INSERT` fails is logged and dropped: the call returns
normally (no exception escapes `save_to_database`), the row is not retried,
and the table keeps exactly its previous rows. -/
theorem save_to_database_error_drops {Row : Type}
    (execInsert : Row → Except String Unit) (table : List Row) (row : Row)
    (e : String) (h : execInsert row = .error e) :
    save_to_database execInsert table row = table := by
  simp [save_to_database, h]

/-- C2 witness: a concrete failing insert leaves the table unchanged. -/
theorem save_to_database_error_drops_witness :
    save_to_database (fun _ : Nat => Except.error "disk full") [1, 2] 3 = [1, 2] :=
  save_to_database_error_drops (fun _ : Nat => Except.error "disk full") [1, 2] 3
    "disk full" rfl

/-- C3: a non-positive `max_workers` is rejected as a configuration error
before any job executes — no fetch is attempted and the store is unchanged —
and a run over an empty job list returns immediately with the store unchanged
and no fetch attempted. -/
theorem collect_all_data_config_and_empty (max_workers : Int) (jobs : List Job)
    (env : Env) (store : Store) :
    (max_workers ≤ 0 →
      collect_all_data max_workers jobs env store
        = { store := store, trace := [],
            configError := some "max_workers must be greater than 0" })
    ∧ (0 < max_workers →
      collect_all_data max_workers [] env store
        = { store := store, trace := [], configError := none }) := by
  constructor
  · intro h
    simp [collect_all_data, h]
  · intro h
    have h' : ¬ max_workers ≤ 0 := by omega
    simp [collect_all_data, h']

/-- C3 witness: the configuration check at `max_workers = 0` and the empty
run at `max_workers = 3`. -/
theorem collect_all_data_config_and_empty_witness :
    collect_all_data 0 [] envW storeW
        = { store := storeW, trace := [],
            configError := some "max_workers must be greater than 0" }
    ∧ collect_all_data 3 [] envW storeW
        = { store := storeW, trace := [], configError := none } :=
  ⟨(collect_all_data_config_and_empty 0 [] envW storeW).1 (by decide),
   (collect_all_data_config_and_empty 3 [] envW storeW).2 (by decide)⟩

/-- C4 counterexample: a successfully fetched page whose title element holds
two children (text `"a"` and a tag around `"c"`).  `soup.title.string` is
Python `None` there, so the stored title is NULL — neither the title
element's text `"ac"` nor the fallback `"No title"` — refuting "title is the
document title with fallback `No title` when the title element is absent". -/
theorem scrape_website_title_null :
    ((scrape_website (Except.ok multiTitleDocW) true true "t0" storeW
        "https://example.com").1.web_data.map WebRow.title = [none])
    ∧ tagText (Html.elem "title" [Html.text "a", Html.elem "b" [Html.text "c"]]) = "ac"
    ∧ (none : Option String) ≠ some "ac"
    ∧ (none : Option String) ≠ some "No title" :=
  ⟨rfl, rfl, by decide, by decide⟩

/-- C4 (amended): every successful page fetch appends exactly one `web_data`
row.  Its title is bound to `soup.title.string`: the fallback `"No title"`
when no title element exists; when one exists, that element's unique string —
NULL (`none`) when the element is empty or has several children.  Its content
is the whitespace-normalized join of exactly those text fragments of the
fetched document that lie outside `script`/`style` elements. -/
theorem scrape_website_success_record (doc : List Html) (fileOk : Bool)
    (now url : String) (store : Store) :
    ∃ row : WebRow,
      (scrape_website (Except.ok doc) true fileOk now store url).1.web_data
        = store.web_data ++ [row]
      ∧ (findTagL "title" doc = none → row.title = some "No title")
      ∧ (∀ t : Html, findTagL "title" doc = some t → row.title = tagString t)
      ∧ row.content
          = String.intercalate " "
              (((cleanL doc).map pyStrip).filter (fun s => ¬ s = "")) := by
  refine ⟨{ url := url,
            title := match findTagL "title" doc with
                     | some t => tagString t
                     | none => some "No title",
            content := getTextStrip (stripL doc),
            timestamp := now, source := "web_scraping" }, ?_, ?_, ?_, ?_⟩
  · cases fileOk <;> simp [scrape_website, save_to_database]
  · intro h
    simp only [h]
  · intro t ht
    simp only [ht]
  · simp [getTextStrip, fragsL_strip]

/-- C4 witness: the amended claim at a concrete page whose title element has
the single string child `"T"`. -/
theorem scrape_website_success_record_witness :
    ∃ row : WebRow,
      (scrape_website (Except.ok pageDocW) true true "t0" storeW
          "https://example.com").1.web_data = storeW.web_data ++ [row]
      ∧ row.title = some "T" := by
  obtain ⟨row, happ, -, htitle, -⟩ :=
    scrape_website_success_record pageDocW true "t0" "https://example.com" storeW
  exact ⟨row, happ,
    (htitle (Html.elem "title" [Html.text "T"]) rfl).trans rfl⟩

/-- C5: a successfully fetched feed appends exactly one `news_articles` row
per `item` element, in order, built by `rssRow` (title fallback `"No title"`,
empty-string fallbacks for description, pubDate and link); a feed with zero
`item` elements appends zero rows, and the job still succeeds. -/
theorem parse_rss_feed_per_item (doc : List Html) (now feed_url : String)
    (store : Store) :
    (parse_rss_feed (Except.ok doc) (fun _ => Except.ok ()) now store
        feed_url).1.news_articles
      = store.news_articles ++ (itemsL doc).map (rssRow feed_url now)
    ∧ (parse_rss_feed (Except.ok doc) (fun _ => Except.ok ()) now store
        feed_url).2.1 = true
    ∧ (itemsL doc = [] →
        (parse_rss_feed (Except.ok doc) (fun _ => Except.ok ()) now store
          feed_url).1 = store) := by
  refine ⟨?_, rfl, ?_⟩
  · simp [parse_rss_feed, foldl_save_allok]
  · intro h
    simp [parse_rss_feed, h]

/-- C5 witness: a feed with a channel but no items leaves the store
unchanged. -/
theorem parse_rss_feed_per_item_witness :
    (parse_rss_feed (Except.ok emptyFeedW) (fun _ => Except.ok ()) "t0" storeW
        "http://feeds.example.com/rss.xml").1 = storeW :=
  (parse_rss_feed_per_item emptyFeedW "t0" "http://feeds.example.com/rss.xml"
    storeW).2.2 rfl

/-- C6: a failing archive-file write does not roll back the structured
append: for both page and API jobs the freshly inserted row stays in the
store, while the call as a whole reports failure (returns `None`). -/
theorem archive_failure_no_rollback (doc : List Html) (body : String) (j : Json)
    (h : jsonLoads body = some j) (now url endpoint : String) (store : Store) :
    ((scrape_website (Except.ok doc) true false now store url).2.1 = none
      ∧ ∃ row : WebRow,
          (scrape_website (Except.ok doc) true false now store url).1.web_data
            = store.web_data ++ [row])
    ∧ ((fetch_from_api (Except.ok body) true false now store endpoint).2.1 = none
      ∧ ∃ arow : ApiRow,
          (fetch_from_api (Except.ok body) true false now store endpoint).1.api_data
            = store.api_data ++ [arow]) := by
  refine ⟨⟨rfl, ⟨{ url := url,
                   title := match findTagL "title" doc with
                            | some t => tagString t
                            | none => some "No title",
                   content := getTextStrip (stripL doc),
                   timestamp := now, source := "web_scraping" }, ?_⟩⟩,
         ?_, ⟨{ endpoint := endpoint, data_type := "json", data_json := jsonDumps j,
                timestamp := now }, ?_⟩⟩
  · simp [scrape_website, save_to_database]
  · simp [fetch_from_api, h]
  · simp [fetch_from_api, h, save_to_database]

/-- C6 witness: the archive failure at a concrete page and a concrete API
body. -/
theorem archive_failure_no_rollback_witness :
    ((scrape_website (Except.ok []) true false "t0" storeW
        "https://example.com").2.1 = none
      ∧ ∃ row : WebRow,
          (scrape_website (Except.ok []) true false "t0" storeW
            "https://example.com").1.web_data = storeW.web_data ++ [row])
    ∧ ((fetch_from_api (Except.ok "true") true false "t0" storeW
        "https://api.example.com/x").2.1 = none
      ∧ ∃ arow : ApiRow,
          (fetch_from_api (Except.ok "true") true false "t0" storeW
            "https://api.example.com/x").1.api_data = storeW.api_data ++ [arow]) :=
  archive_failure_no_rollback [] "true" (Json.bool true) rfl "t0"
    "https://example.com" "https://api.example.com/x" storeW

/-- C7: with a positive worker count, a run over a list of N jobs issues
exactly N HTTP attempts — one per job, in submission order, with no retry —
whatever the outcome of each attempt. -/
theorem collect_all_data_fetch_attempts (max_workers : Int) (jobs : List Job)
    (env : Env) (store : Store) (h : 1 ≤ max_workers) :
    (collect_all_data max_workers jobs env store).trace = jobs.map Job.url
    ∧ (collect_all_data max_workers jobs env store).configError = none := by
  have h' : ¬ max_workers ≤ 0 := by omega
  constructor
  · simp [collect_all_data, h', foldl_runJob_trace]
  · simp [collect_all_data, h']

/-- C7 witness: three jobs, one of each kind, all of whose fetches fail, still
produce exactly three attempts. -/
theorem collect_all_data_fetch_attempts_witness :
    (collect_all_data 3 jobsW envW storeW).trace
      = ["https://en.wikipedia.org/wiki/Main_Page",
         "https://api.publicapis.org/entries",
         "http://feeds.bbci.co.uk/news/world/rss.xml"]
    ∧ (collect_all_data 3 jobsW envW storeW).configError = none :=
  collect_all_data_fetch_attempts 3 jobsW envW storeW (by decide)

/-- C8 counterexample: on an archive directory not yet containing
`collection_report.json`, two consecutive report generations over the same
unchanged store agree on every per-variant count but differ in `file_count`:
the first call itself creates the report file that the second call lists. -/
theorem generate_summary_report_not_idempotent :
    report1W.1.web_scraping = report2W.1.web_scraping
    ∧ report1W.1.api_data = report2W.1.api_data
    ∧ report1W.1.news_articles = report2W.1.news_articles
    ∧ report1W.1.file_count = 1 ∧ report2W.1.file_count = 2 := by
  decide

/-- C8 (amended): report generation over an unchanged store always reproduces
the per-variant counts byte for byte; `file_count`, however, grows by exactly
one from the first to the second call when the report file did not yet exist
(the report is written into the very directory it counts) and is stable from
the second call onward. -/
theorem generate_summary_report_counts_stable (now1 now2 now3 : String)
    (store : Store) (fs : List FileEntry) (sz1 sz2 sz3 : Nat) :
    ((generate_summary_report now1 store fs sz1).1.web_scraping
        = (generate_summary_report now2 store
            (generate_summary_report now1 store fs sz1).2 sz2).1.web_scraping
      ∧ (generate_summary_report now1 store fs sz1).1.api_data
        = (generate_summary_report now2 store
            (generate_summary_report now1 store fs sz1).2 sz2).1.api_data
      ∧ (generate_summary_report now1 store fs sz1).1.news_articles
        = (generate_summary_report now2 store
            (generate_summary_report now1 store fs sz1).2 sz2).1.news_articles)
    ∧ (generate_summary_report now2 store
          (generate_summary_report now1 store fs sz1).2 sz2).1.file_count
        = (generate_summary_report now1 store fs sz1).1.file_count
          + (if fs.any (fun e => e.name == "collection_report.json") then 0 else 1)
    ∧ (generate_summary_report now3 store
          (generate_summary_report now2 store
            (generate_summary_report now1 store fs sz1).2 sz2).2 sz3).1.file_count
        = (generate_summary_report now2 store
            (generate_summary_report now1 store fs sz1).2 sz2).1.file_count := by
  refine ⟨⟨rfl, rfl, rfl⟩, ?_, ?_⟩
  · show ((writeFile fs "collection_report.json" sz1).length : Int) - 1
      = ((fs.length : Int) - 1)
        + (if fs.any (fun e => e.name == "collection_report.json") then 0 else 1)
    rw [writeFile_length]
    by_cases hany : fs.any (fun e => e.name == "collection_report.json") = true
    · simp [hany]
    · simp [hany]
  · show ((writeFile (writeFile fs "collection_report.json" sz1)
        "collection_report.json" sz2).length : Int) - 1
      = ((writeFile fs "collection_report.json" sz1).length : Int) - 1
    rw [writeFile_length, if_pos (writeFile_mem fs "collection_report.json" sz1)]

/-- C9: every row that `scrape_website` adds to `web_data` — whether invoked
directly or through a source group such as `collect_government_data` — has
`source` equal to the constant `"web_scraping"`, so the stored row does not
record which group initiated the scrape. -/
theorem web_rows_source_constant (fetch : Except String (List Html))
    (genv : String → Except String (List Html)) (dbOk fileOk : Bool)
    (now : String) (store : Store) (url : String) :
    (∀ row ∈ (scrape_website fetch dbOk fileOk now store url).1.web_data,
        row ∈ store.web_data ∨ row.source = "web_scraping")
    ∧ (∀ row ∈ (collect_government_data genv dbOk fileOk now store).web_data,
        row ∈ store.web_data ∨ row.source = "web_scraping") := by
  constructor
  · exact fun row hrow =>
      scrape_website_web_data_mem fetch dbOk fileOk now store url row hrow
  · exact foldl_scrape_sources genv dbOk fileOk now store.web_data
      government_sources store (fun row hrow => Or.inl hrow)

/-- C9 witness: the row scraped from a concrete page is either pre-existing
(it is not: the store starts empty) or carries `source = "web_scraping"`. -/
theorem web_rows_source_constant_witness :
    ({ url := "https://example.com", title := some "T", content := "T hi",
       timestamp := "t0", source := "web_scraping" } : WebRow)
        ∈ ([] : List WebRow)
    ∨ ({ url := "https://example.com", title := some "T", content := "T hi",
         timestamp := "t0", source := "web_scraping" } : WebRow).source
        = "web_scraping" :=
  (web_rows_source_constant (Except.ok pageDocW) (fun _ => Except.error "net")
      true true "t0" storeW "https://example.com").1
    { url := "https://example.com", title := some "T", content := "T hi",
      timestamp := "t0", source := "web_scraping" } (List.Mem.head _)

/-- C10: every row that `parse_rss_feed` adds to `news_articles` has an empty
`authors` field, for every input feed. -/
theorem news_rows_authors_empty (fetch : Except String (List Html))
    (dbExec : NewsRow → Except String Unit) (now : String) (store : Store)
    (feed_url : String) :
    ∀ row ∈ (parse_rss_feed fetch dbExec now store feed_url).1.news_articles,
      row ∈ store.news_articles ∨ row.authors = "" := by
  cases fetch with
  | error e => exact fun row hrow => Or.inl hrow
  | ok doc =>
    intro row hrow
    simp only [parse_rss_feed] at hrow
    exact foldl_save_news dbExec feed_url now store.news_articles (itemsL doc)
      store.news_articles (fun r hr => Or.inl hr) row hrow

/-- C10 witness: the row parsed from a concrete one-item feed is either
pre-existing (it is not: the store starts empty) or has empty `authors`. -/
theorem news_rows_authors_empty_witness :
    ({ title := "Headline", content := "", source := "http://feeds.example.com/rss.xml",
       published_date := "", url := "", authors := "", timestamp := "t0" } : NewsRow)
        ∈ ([] : List NewsRow)
    ∨ ({ title := "Headline", content := "", source := "http://feeds.example.com/rss.xml",
         published_date := "", url := "", authors := "", timestamp := "t0" } : NewsRow).authors
        = "" :=
  news_rows_authors_empty (Except.ok feedDocW) (fun _ => Except.ok ()) "t0" storeW
    "http://feeds.example.com/rss.xml"
    { title := "Headline", content := "", source := "http://feeds.example.com/rss.xml",
      published_date := "", url := "", authors := "", timestamp := "t0" } (List.Mem.head _)
